import Mathlib

/-!
Shallow embedding of the GoodnessGrid donation platform's database layer
(`database.py`), together with theorems settling the specification claims
about it.

Modelling conventions:
* The MySQL store is a `DB` value: three tables as lists of rows, the
  auto-increment counters, and the clock value that `NOW()` returns.
* Each Python helper in `database.py` becomes a Lean function on `DB`.
  Every helper first opens a connection (which may fail) and runs queries
  (which may raise `mysql.connector.Error`); the `StorageFault` argument
  selects which of these happens.  The connector's autocommit is off, so
  statements executed before a raised error are rolled back when the
  connection closes: on any fault the function returns its fallback value
  and the store is unchanged.
* `ORDER BY created_at DESC` is modelled by an insertion sort on the
  `created_at` key, descending; SQL leaves the order of ties unspecified.
* SQL `LIKE` under MySQL's default case-insensitive collation is modelled
  by `likeMatch` over lowercased character lists ('%' and '_' wildcards,
  no escape handling; the theorems only apply it to patterns built from
  wildcard-free queries, where escapes are irrelevant).
* Numeric aggregation (`completion_rate`) is modelled over `ℚ`; Python's
  1-decimal `round` is modelled as `round1`.
-/

namespace GoodnessGrid

/-- Row of the `Users` table (the columns the embedded operations read). -/
structure User where
  user_id : Nat
  name : String
  phone : String
  address : String
  role : String
  verified : Bool
  created_at : Nat
deriving DecidableEq, Repr

/-- Row of the `Donations` table.  `notes` is a nullable column of the
schema; the `created_at` column is the insertion timestamp. -/
structure Donation where
  donation_id : Nat
  donor_id : Nat
  type : String
  description : String
  quantity : String
  pickup_address : String
  pickup_time : Option String
  expiry_date : Option String
  notes : Option String
  status : String
  created_at : Nat
deriving DecidableEq, Repr

/-- Row of the `Transactions` table. -/
structure Txn where
  transaction_id : Nat
  donation_id : Nat
  ngo_id : Nat
  volunteer_id : Option Nat
  status : String
  created_at : Nat
  completed_at : Option Nat
deriving DecidableEq, Repr

/-- The relational store: the three tables, the auto-increment counters,
and the value `NOW()` currently returns. -/
structure DB where
  users : List User
  donations : List Donation
  transactions : List Txn
  next_donation_id : Nat
  next_transaction_id : Nat
  now : Nat
deriving DecidableEq, Repr

/-- How a call to a `database.py` helper can go: `get_db_connection()`
returns `None`; some statement raises `mysql.connector.Error` before the
commit; or everything succeeds. -/
inductive StorageFault where
  | noConnection
  | queryError
  | ok
deriving DecidableEq, Repr

/-- Insert into a list that is sorted by `key` descending. -/
def insertDesc (key : α → Nat) (a : α) : List α → List α
  | [] => [a]
  | b :: l => if key b < key a then a :: b :: l else b :: insertDesc key a l

/-- Sort a list by `key` descending: models SQL `ORDER BY key DESC`
(tie order in SQL is unspecified; this is one consistent choice). -/
def sortDesc (key : α → Nat) : List α → List α
  | [] => []
  | a :: l => insertDesc key a (sortDesc key l)

/-- Look a user up by primary key: models `JOIN Users u ON ... = u.user_id`
for a single row. -/
def findUser (db : DB) (uid : Nat) : Option User :=
  db.users.find? (fun u => u.user_id = uid)

end GoodnessGrid

namespace GoodnessGrid

/-- Result row of the donation-listing queries: `SELECT d.*, u.name as
donor_name, u.phone as donor_phone FROM Donations d JOIN Users u ...`. -/
structure DonationView where
  donation : Donation
  donor_name : String
  donor_phone : String
deriving DecidableEq, Repr

/-- The donor join used by `get_all_donations` and `search_donations`:
an inner `JOIN Users u ON d.donor_id = u.user_id` keeps only donations
whose donor row resolves. -/
def donorJoin (db : DB) (d : Donation) : Option DonationView :=
  match findUser db d.donor_id with
  | some u => some ⟨d, u.name, u.phone⟩
  | none => none

/-- Embedding of `get_all_donations(status)` (`database.py:256`):
donations with the given status joined with their donor, newest first;
`[]` on storage failure. -/
def get_all_donations (db : DB) (status : String) (f : StorageFault) :
    List DonationView :=
  match f with
  | .ok =>
    sortDesc (fun v => v.donation.created_at)
      ((db.donations.filter (fun d => d.status = status)).filterMap
        (donorJoin db))
  | _ => []

/-- Embedding of `create_donation(...)` (`database.py:201`).  The INSERT
lists columns `(donor_id, type, description, quantity, pickup_address,
pickup_time, expiry_date, status)` only: the `notes` argument is accepted
by the Python function but never bound in the query, so the stored row's
`notes` column keeps its NULL default.  Returns the new id, or `none` on
storage failure. -/
def create_donation (db : DB) (donor_id : Nat)
    (donation_type description quantity pickup_address : String)
    (pickup_time expiry_date notes : Option String) (f : StorageFault) :
    Option Nat × DB :=
  match f with
  | .ok =>
    let row : Donation :=
      { donation_id := db.next_donation_id
        donor_id := donor_id
        type := donation_type
        description := description
        quantity := quantity
        pickup_address := pickup_address
        pickup_time := pickup_time
        expiry_date := expiry_date
        notes := none
        status := "available"
        created_at := db.now }
    (some db.next_donation_id,
      { db with donations := db.donations ++ [row]
                next_donation_id := db.next_donation_id + 1 })
  | _ => (none, db)

/-- Embedding of `claim_donation(donation_id, ngo_id)` (`database.py:364`).
Runs `UPDATE Donations SET status='claimed' WHERE donation_id=%s AND
status='available'`, then unconditionally `INSERT INTO Transactions
(donation_id, ngo_id, status) VALUES (%s,%s,'pending')`, commits, and
returns `True`; the row count of the guarded UPDATE is never examined.
On a fault nothing is committed and the call returns `False`. -/
def claim_donation (db : DB) (donation_id ngo_id : Nat) (f : StorageFault) :
    Bool × DB :=
  match f with
  | .ok =>
    let donations := db.donations.map (fun d =>
      if d.donation_id = donation_id && d.status = "available" then
        { d with status := "claimed" }
      else d)
    let t : Txn :=
      { transaction_id := db.next_transaction_id
        donation_id := donation_id
        ngo_id := ngo_id
        volunteer_id := none
        status := "pending"
        created_at := db.now
        completed_at := none }
    (true,
      { db with donations := donations
                transactions := db.transactions ++ [t]
                next_transaction_id := db.next_transaction_id + 1 })
  | _ => (false, db)

/-- Embedding of `assign_volunteer_to_transaction(transaction_id,
volunteer_id)` (`database.py:465`): `UPDATE Transactions SET
volunteer_id=%s, status='in_progress' WHERE transaction_id=%s` — no
condition on the current status — then commit and return `True`. -/
def assign_volunteer_to_transaction (db : DB)
    (transaction_id volunteer_id : Nat) (f : StorageFault) : Bool × DB :=
  match f with
  | .ok =>
    (true,
      { db with transactions := db.transactions.map (fun t =>
          if t.transaction_id = transaction_id then
            { t with volunteer_id := some volunteer_id
                     status := "in_progress" }
          else t) })
  | _ => (false, db)

/-- Embedding of `complete_transaction(transaction_id)`
(`database.py:538`): within one commit, `UPDATE Transactions SET
status='completed', completed_at=NOW() WHERE transaction_id=%s` and
`UPDATE Donations d JOIN Transactions t ON d.donation_id = t.donation_id
SET d.status='completed' WHERE t.transaction_id=%s`.  Both UPDATEs are
unconditional on the rows they match; the join update touches exactly the
donations referenced by the matching transaction. -/
def complete_transaction (db : DB) (transaction_id : Nat)
    (f : StorageFault) : Bool × DB :=
  match f with
  | .ok =>
    let dids :=
      (db.transactions.filter
        (fun t => t.transaction_id = transaction_id)).map
        (fun t => t.donation_id)
    (true,
      { db with
          transactions := db.transactions.map (fun t =>
            if t.transaction_id = transaction_id then
              { t with status := "completed", completed_at := some db.now }
            else t)
          donations := db.donations.map (fun d =>
            if dids.contains d.donation_id then
              { d with status := "completed" }
            else d) })
  | _ => (false, db)

/-- Result row of `get_pending_pickups`: the transaction together with
the joined donation fields and the donor and ngo identities. -/
structure PickupView where
  tx : Txn
  d_type : String
  d_description : String
  d_quantity : String
  d_pickup_address : String
  donor_name : String
  donor_phone : String
  ngo_name : String
  ngo_phone : String
deriving DecidableEq, Repr

/-- The three inner joins of `get_pending_pickups` for one transaction
row: donation via `donation_id`, donor via the donation's `donor_id`,
ngo via the transaction's `ngo_id`.  An inner join drops the row when
any of them fails to resolve. -/
def pickupJoin (db : DB) (t : Txn) : Option PickupView :=
  match db.donations.find? (fun d => d.donation_id = t.donation_id) with
  | none => none
  | some d =>
    match findUser db d.donor_id, findUser db t.ngo_id with
    | some donor, some ngo =>
      some ⟨t, d.type, d.description, d.quantity, d.pickup_address,
        donor.name, donor.phone, ngo.name, ngo.phone⟩
    | _, _ => none

/-- Embedding of `get_pending_pickups()` (`database.py:426`):
`WHERE t.status = 'pending' AND t.volunteer_id IS NULL`, three inner
joins, `ORDER BY t.created_at DESC`; `[]` on storage failure. -/
def get_pending_pickups (db : DB) (f : StorageFault) : List PickupView :=
  match f with
  | .ok =>
    sortDesc (fun v => v.tx.created_at)
      ((db.transactions.filter
          (fun t => t.status = "pending" && t.volunteer_id = none)).filterMap
        (pickupJoin db))
  | _ => []

/-- Matcher for a SQL `LIKE` pattern over characters: `%` matches any
sequence, `_` matches any single character, anything else matches
itself.  Escape sequences are not modelled. -/
def likeMatch : List Char → List Char → Bool
  | [], s => s.isEmpty
  | p :: ps, s =>
    if p = '%' then s.tails.any (fun t => likeMatch ps t)
    else
      match s with
      | [] => false
      | c :: cs =>
        if p = '_' then likeMatch ps cs else p = c && likeMatch ps cs

/-- Whether `q` occurs verbatim at the head of `s`. -/
def chPrefix : List Char → List Char → Bool
  | [], _ => true
  | _ :: _, [] => false
  | p :: ps, c :: cs => p = c && chPrefix ps cs

/-- Whether `q` occurs verbatim somewhere inside `s`: at the head of
some suffix. -/
def chSubstr (q s : List Char) : Bool :=
  s.tails.any (fun t => chPrefix q t)

/-- Lowercase a character list (ASCII-style `Char.toLower`, which is
how string data is folded for the case-insensitive comparison below). -/
def lowerL (l : List Char) : List Char :=
  l.map Char.toLower

/-- Embedding of the Python `field LIKE %s` condition with parameter
`f"%{q}%"`: MySQL's default collation compares case-insensitively, which
is modelled by lowercasing both sides. -/
def likeContainsCI (q s : String) : Bool :=
  likeMatch ('%' :: (lowerL q.toList ++ ['%'])) (lowerL s.toList)

/-- Case-insensitive substring containment: the specification's reading
of the search condition. -/
def containsCI (q s : String) : Bool :=
  chSubstr (lowerL q.toList) (lowerL s.toList)

/-- Whether a string is free of the SQL LIKE metacharacters `%`, `_`
and the escape character `\` (checked on the lowercased form, which is
what reaches the LIKE pattern). -/
def wildcardFree (s : String) : Bool :=
  (lowerL s.toList).all (fun c => !(c = '%' || c = '_' || c = '\\'))

/-- Embedding of `search_donations(search_query, donation_type, status)`
(`database.py:581`).  The query is built dynamically: the description/
quantity LIKE condition is appended only when `search_query` is truthy
(non-empty), and the exact type condition only when `donation_type` is
truthy and not the sentinel `'all'`; Python's falsy strings (`None` and
`""`) are both modelled by `""`.  Rows are joined with the donor and
ordered by `created_at` descending; `[]` on storage failure. -/
def search_donations (db : DB) (search_query donation_type status : String)
    (f : StorageFault) : List DonationView :=
  match f with
  | .ok =>
    let base := db.donations.filter (fun d => d.status = status)
    let afterSearch :=
      if search_query ≠ "" then
        base.filter (fun d =>
          likeContainsCI search_query d.description ||
          likeContainsCI search_query d.quantity)
      else base
    let afterType :=
      if donation_type ≠ "" && donation_type ≠ "all" then
        afterSearch.filter (fun d => d.type = donation_type)
      else afterSearch
    sortDesc (fun v => v.donation.created_at)
      (afterType.filterMap (donorJoin db))
  | _ => []

/-- Value of `dict.get(key, 0)` on an association list built by a
GROUP BY query. -/
def dictGet (g : List (String × Nat)) (k : String) : Nat :=
  match g.find? (fun p => p.1 = k) with
  | some p => p.2
  | none => 0

/-- Association list `{key: COUNT(*)}` produced by `SELECT k, COUNT(*)
... GROUP BY k`: one entry per distinct key with its multiplicity. -/
def groupCounts (keys : List String) : List (String × Nat) :=
  keys.dedup.map (fun k => (k, keys.count k))

/-- Python's `round(x, 1)` modelled over `ℚ`: round to the nearest
tenth.  (Ties, which Python resolves to even on binary floats, are
resolved upward here; no theorem below depends on tie behaviour.) -/
def round1 (x : ℚ) : ℚ := (round (x * 10) : ℤ) / 10

/-- The completion-rate arithmetic of `get_platform_stats`, as written
in the source: `round((completed / total) * 100, 1)` when `total > 0`,
else `0`. -/
def completionRate (completed total : Nat) : ℚ :=
  if 0 < total then round1 (((completed : ℚ) / (total : ℚ)) * 100) else 0

/-- Result of `get_platform_stats()`. -/
structure PlatformStats where
  users_by_role : List (String × Nat)
  total_users : Nat
  donations_by_status : List (String × Nat)
  total_donations : Nat
  transactions_by_status : List (String × Nat)
  total_transactions : Nat
  completion_rate : ℚ
deriving DecidableEq, Repr

/-- Embedding of `get_platform_stats()` (`database.py:663`): three
GROUP BY counts, totals as the sums of the group counts, and
`completion_rate = round((completed / total) * 100, 1)` when the
transaction total is positive, else `0`.  The Python function returns
the empty dict `{}` on storage failure, modelled as `none`. -/
def get_platform_stats (db : DB) (f : StorageFault) :
    Option PlatformStats :=
  match f with
  | .ok =>
    let ur := groupCounts (db.users.map (fun u => u.role))
    let ds := groupCounts (db.donations.map (fun d => d.status))
    let ts := groupCounts (db.transactions.map (fun t => t.status))
    let totalT := (ts.map (fun p => p.2)).sum
    some
      { users_by_role := ur
        total_users := (ur.map (fun p => p.2)).sum
        donations_by_status := ds
        total_donations := (ds.map (fun p => p.2)).sum
        transactions_by_status := ts
        total_transactions := totalT
        completion_rate := completionRate (dictGet ts "completed") totalT }
  | _ => none

/-- The Transaction invariant of the data model: `volunteer_id` is null
iff status is pending; in_progress implies a volunteer is set; completed
implies the parent donation is completed. -/
def txInvariant (db : DB) : Prop :=
  ∀ t ∈ db.transactions,
    (t.volunteer_id = none ↔ t.status = "pending") ∧
    (t.status = "in_progress" → t.volunteer_id ≠ none) ∧
    (t.status = "completed" →
      ∀ d ∈ db.donations, d.donation_id = t.donation_id →
        d.status = "completed")

instance (db : DB) : Decidable (txInvariant db) := by
  unfold txInvariant; infer_instance

/-- Embedding of `verify_ngo(user_id)` (`database.py:711`):
`UPDATE Users SET verified = TRUE WHERE user_id = %s`, commit, `True`. -/
def verify_ngo (db : DB) (user_id : Nat) (f : StorageFault) : Bool × DB :=
  match f with
  | .ok =>
    (true,
      { db with users := db.users.map (fun u =>
          if u.user_id = user_id then { u with verified := true } else u) })
  | _ => (false, db)

end GoodnessGrid

namespace GoodnessGrid

/-- Required-field validation of the donation-posting route
(`app.py:256`): one message per missing or too-short required field. -/
def donation_post_errors
    (donation_type description quantity pickup_address : String) :
    List String :=
  (if donation_type = "" then ["Please select a donation type!"] else []) ++
  (if description = "" || description.length < 10 then
    ["Description must be at least 10 characters!"] else []) ++
  (if quantity = "" then ["Please specify quantity!"] else []) ++
  (if pickup_address = "" || pickup_address.length < 10 then
    ["Please provide a complete pickup address!"] else [])

/-- Embedding of the donation-posting operation as the route handler
performs it (`app.py:246`): validate the required fields, reject with
the error messages and no insertion when any check fails, otherwise call
`create_donation` (the route always passes the stripped `notes` string). -/
def post_donation (db : DB) (donor_id : Nat)
    (donation_type description quantity pickup_address notes : String)
    (pickup_time expiry_date : Option String) (f : StorageFault) :
    List String × Option Nat × DB :=
  let errors :=
    donation_post_errors donation_type description quantity pickup_address
  if errors = [] then
    let r := create_donation db donor_id donation_type description quantity
      pickup_address pickup_time expiry_date (some notes) f
    (errors, r.1, r.2)
  else (errors, none, db)

end GoodnessGrid

namespace GoodnessGrid

/-- Sample donor row. -/
def donorU : User :=
  ⟨1, "Asha", "9111", "12 Main Street Pune", "donor", false, 1⟩

/-- Sample ngo row. -/
def ngoU : User :=
  ⟨2, "Helping Hands", "9222", "45 Oak Road Pune", "ngo", true, 1⟩

/-- Sample available donation posted by the donor. -/
def riceD : Donation :=
  ⟨1, 1, "food", "Basmati Rice bags", "10 kg", "12 Main Street Pune",
    none, none, none, "available", 2⟩

/-- A store holding the two users and one available donation. -/
def availableDB : DB := ⟨[donorU, ngoU], [riceD], [], 2, 1, 5⟩

/-- The store after the ngo successfully claims donation 1: the donation
is `claimed` and one pending transaction exists. -/
def claimedDB : DB := (claim_donation availableDB 1 2 .ok).2

/-- The store after a first volunteer (id 5) is assigned to
transaction 1: the transaction is `in_progress` with `volunteer_id = 5`. -/
def firstAssignDB : DB :=
  (assign_volunteer_to_transaction claimedDB 1 5 .ok).2

/-- The transaction row of `firstAssignDB`. -/
def assignedTxn : Txn := ⟨1, 1, 2, some 5, "in_progress", 5, none⟩

/-- The donation row of `claimedDB` and `firstAssignDB`. -/
def claimedRiceD : Donation := { riceD with status := "claimed" }

/-- Transaction row for the statistics example. -/
def statsTxn (i : Nat) (st : String) (v : Option Nat) : Txn :=
  ⟨i, 1, 2, v, st, i, none⟩

/-- Search semantics exactly as the claim words them (refinement
reference, not source code): available donations whose description OR
quantity contains the query case-insensitively AND whose type equals the
filter, the type condition skipped exactly when the sentinel `all` is
given; newest first. -/
def searchSpecClaimed (db : DB) (q ty : String) : List DonationView :=
  sortDesc (fun v => v.donation.created_at)
    ((db.donations.filter (fun d =>
      d.status = "available" &&
      (containsCI q d.description || containsCI q d.quantity) &&
      (ty = "all" || d.type = ty))).filterMap (donorJoin db))

/-- The amended search semantics: like `searchSpecClaimed` but the type
condition is also skipped when the filter is the empty string (an absent
filter is falsy in Python, exactly like the sentinel). -/
def searchSpecAmended (db : DB) (q ty : String) : List DonationView :=
  sortDesc (fun v => v.donation.created_at)
    ((db.donations.filter (fun d =>
      d.status = "available" &&
      (containsCI q d.description || containsCI q d.quantity) &&
      (ty = "all" || ty = "" || d.type = ty))).filterMap (donorJoin db))

/-- A store whose transactions are distributed
`{pending: 2, in_progress: 1, completed: 7}`. -/
def statsDB : DB :=
  ⟨[donorU, ngoU], [riceD],
   [statsTxn 1 "pending" none, statsTxn 2 "pending" none,
    statsTxn 3 "in_progress" (some 5),
    statsTxn 4 "completed" (some 5), statsTxn 5 "completed" (some 5),
    statsTxn 6 "completed" (some 5), statsTxn 7 "completed" (some 5),
    statsTxn 8 "completed" (some 5), statsTxn 9 "completed" (some 5),
    statsTxn 10 "completed" (some 5)],
   2, 11, 20⟩

end GoodnessGrid

namespace GoodnessGrid

theorem insertDesc_perm (key : α → Nat) (a : α) (l : List α) :
    (insertDesc key a l).Perm (a :: l) := by
  induction l with
  | nil => exact List.Perm.refl _
  | cons b l ih =>
    simp only [insertDesc]
    split
    · exact List.Perm.refl _
    · exact (ih.cons b).trans (List.Perm.swap a b l)

theorem sortDesc_perm (key : α → Nat) (l : List α) :
    (sortDesc key l).Perm l := by
  induction l with
  | nil => exact List.Perm.refl _
  | cons a l ih =>
    simp only [sortDesc]
    exact (insertDesc_perm key a _).trans (ih.cons a)

theorem mem_insertDesc {key : α → Nat} {a x : α} {l : List α} :
    x ∈ insertDesc key a l ↔ x = a ∨ x ∈ l := by
  rw [(insertDesc_perm key a l).mem_iff]
  simp

theorem pairwise_insertDesc {key : α → Nat} {a : α} {l : List α}
    (h : l.Pairwise (fun x y => key y ≤ key x)) :
    (insertDesc key a l).Pairwise (fun x y => key y ≤ key x) := by
  induction l with
  | nil => simp [insertDesc]
  | cons b l ih =>
    rcases List.pairwise_cons.mp h with ⟨hb, hl⟩
    simp only [insertDesc]
    split
    · rename_i hba
      refine List.pairwise_cons.mpr ⟨fun y hy => ?_, h⟩
      rcases List.mem_cons.mp hy with rfl | hy
      · exact Nat.le_of_lt hba
      · exact (hb y hy).trans (Nat.le_of_lt hba)
    · rename_i hba
      refine List.pairwise_cons.mpr ⟨fun y hy => ?_, ih hl⟩
      rcases mem_insertDesc.mp hy with rfl | hy
      · exact Nat.le_of_not_lt hba
      · exact hb y hy

theorem pairwise_sortDesc (key : α → Nat) (l : List α) :
    (sortDesc key l).Pairwise (fun x y => key y ≤ key x) := by
  induction l with
  | nil => simp [sortDesc]
  | cons a l ih =>
    simp only [sortDesc]
    exact pairwise_insertDesc ih

end GoodnessGrid

namespace GoodnessGrid

/-- C1: on a donation whose status is already `claimed`, `claim_donation`
nevertheless returns `True` and inserts a second `pending` Transaction
row referencing the same donation: the guarded UPDATE matches zero rows
(the donation stays `claimed` and keeps its original claim transaction),
but the function never inspects the affected row count, so the INSERT
runs and the call reports success.  This contradicts the guarded-claim
behaviour that the `WHERE status='available'` condition was written for. -/
theorem claim_on_claimed_reports_success_and_inserts_orphan :
    (claim_donation claimedDB 1 9 .ok).1 = true ∧
    (claim_donation claimedDB 1 9 .ok).2.donations.map
      (fun d => d.status) = ["claimed"] ∧
    (claim_donation claimedDB 1 9 .ok).2.transactions.map
      (fun t => (t.transaction_id, t.ngo_id, t.status)) =
      [(1, 2, "pending"), (2, 9, "pending")] := by
  decide

/-- C2 counterexample: after a first assignment has put transaction 1
into `in_progress` with volunteer 5, a second
`assign_volunteer_to_transaction(1, 7)` still returns `True` and
overwrites `volunteer_id` with 7 — the UPDATE carries no
`status='pending'` guard, so the claimed pending-only precondition and
the fails-and-leaves-unchanged behaviour are both violated. -/
theorem assign_second_call_succeeds_cex :
    (assign_volunteer_to_transaction firstAssignDB 1 7 .ok).1 = true ∧
    (assign_volunteer_to_transaction firstAssignDB 1 7 .ok).2.transactions.map
      (fun t => (t.volunteer_id, t.status)) = [(some 7, "in_progress")] := by
  decide

/-- C2 amended: `assign_volunteer_to_transaction` succeeds whenever the
storage commit succeeds and unconditionally sets `volunteer_id` and
`status='in_progress'` on every transaction with the given id, whatever
its current status or volunteer; rows with other ids are untouched.  In
particular a later assign overwrites an earlier volunteer rather than
failing. -/
theorem assign_sets_unconditionally :
    ∀ (db : DB) (tid vid : Nat),
      (assign_volunteer_to_transaction db tid vid .ok).1 = true ∧
      (∀ t ∈ db.transactions, t.transaction_id = tid →
        { t with volunteer_id := some vid, status := "in_progress" } ∈
          (assign_volunteer_to_transaction db tid vid .ok).2.transactions) ∧
      (∀ t ∈ db.transactions, t.transaction_id ≠ tid →
        t ∈ (assign_volunteer_to_transaction db tid vid .ok).2.transactions) := by
  intro db tid vid
  refine ⟨rfl, ?_, ?_⟩
  · intro t ht htid
    simp only [assign_volunteer_to_transaction]
    exact List.mem_map.mpr ⟨t, ht, by simp [htid]⟩
  · intro t ht htid
    simp only [assign_volunteer_to_transaction]
    exact List.mem_map.mpr ⟨t, ht, by simp [htid]⟩

/-- C2 amended, witness: overwriting volunteer 5 with 7 on the concrete
store `firstAssignDB`. -/
theorem assign_sets_unconditionally_witness :
    { assignedTxn with volunteer_id := some 7, status := "in_progress" } ∈
      (assign_volunteer_to_transaction firstAssignDB 1 7 .ok).2.transactions :=
  (assign_sets_unconditionally firstAssignDB 1 7).2.1 assignedTxn
    (by decide) (by decide)

/-- C9: every embedded operation is total over storage failure — when
the connection cannot be established or a statement raises
`mysql.connector.Error`, reads return `[]` (`None` for the stats dict),
mutations return `False` with the store unchanged, and the id-returning
create returns `None`; no exception escapes (the embedding returns
values in every case). -/
theorem storage_fault_safe_defaults :
    ∀ (f : StorageFault), f ≠ StorageFault.ok → ∀ (db : DB),
      (∀ did nid, claim_donation db did nid f = (false, db)) ∧
      (∀ status, get_all_donations db status f = []) ∧
      (∀ q ty status, search_donations db q ty status f = []) ∧
      get_pending_pickups db f = [] ∧
      (∀ tid vid,
        assign_volunteer_to_transaction db tid vid f = (false, db)) ∧
      (∀ tid, complete_transaction db tid f = (false, db)) ∧
      (∀ uid, verify_ngo db uid f = (false, db)) ∧
      (∀ donor_id ty de qty pa pt ed n,
        create_donation db donor_id ty de qty pa pt ed n f = (none, db)) ∧
      get_platform_stats db f = none := by
  intro f hf db
  cases f with
  | ok => exact absurd rfl hf
  | noConnection =>
    exact ⟨fun _ _ => rfl, fun _ => rfl, fun _ _ _ => rfl, rfl,
      fun _ _ => rfl, fun _ => rfl, fun _ => rfl,
      fun _ _ _ _ _ _ _ _ => rfl, rfl⟩
  | queryError =>
    exact ⟨fun _ _ => rfl, fun _ => rfl, fun _ _ _ => rfl, rfl,
      fun _ _ => rfl, fun _ => rfl, fun _ => rfl,
      fun _ _ _ _ _ _ _ _ => rfl, rfl⟩

/-- C9 witness: the cited operations at a failed connection on the
concrete store. -/
theorem storage_fault_safe_defaults_witness :
    claim_donation claimedDB 1 9 .noConnection = (false, claimedDB) ∧
    get_all_donations claimedDB "available" .noConnection = [] :=
  ⟨(storage_fault_safe_defaults .noConnection (by decide) claimedDB).1 1 9,
   (storage_fault_safe_defaults .noConnection (by decide) claimedDB).2.1
     "available"⟩

/-- C10: when the commit succeeds, the three guard-free mutations return
`True` even if no stored row matches the given id — a `True` return does
not imply any row was modified; the store is left exactly as it was. -/
theorem mutations_true_without_matching_row :
    ∀ (db : DB) (tid vid uid : Nat),
      ((∀ t ∈ db.transactions, t.transaction_id ≠ tid) →
        complete_transaction db tid .ok = (true, db) ∧
        assign_volunteer_to_transaction db tid vid .ok = (true, db)) ∧
      ((∀ u ∈ db.users, u.user_id ≠ uid) →
        verify_ngo db uid .ok = (true, db)) := by
  intro db tid vid uid
  constructor
  · intro h
    constructor
    · simp only [complete_transaction]
      have hfil : db.transactions.filter
          (fun t => t.transaction_id = tid) = [] :=
        List.filter_eq_nil_iff.mpr (by simpa using h)
      rw [hfil]
      have ht : db.transactions.map (fun t =>
          if t.transaction_id = tid then
            { t with status := "completed", completed_at := some db.now }
          else t) = db.transactions := by
        conv_rhs => rw [← List.map_id db.transactions]
        exact List.map_congr_left (fun t htm => by simp [h t htm])
      have hd : db.donations.map (fun d =>
          if (([] : List Nat).map (fun t => t)).contains d.donation_id then
            { d with status := "completed" }
          else d) = db.donations := by
        conv_rhs => rw [← List.map_id db.donations]
        exact List.map_congr_left (fun d _ => by simp)
      simp only [List.map_nil]
      rw [show db.transactions.map (fun t =>
          if t.transaction_id = tid then
            { t with status := "completed", completed_at := some db.now }
          else t) = db.transactions from ht]
      have : db.donations.map (fun d =>
          if ([] : List Nat).contains d.donation_id then
            { d with status := "completed" }
          else d) = db.donations := by
        conv_rhs => rw [← List.map_id db.donations]
        exact List.map_congr_left (fun d _ => by simp [List.contains])
      rw [this]
    · simp only [assign_volunteer_to_transaction]
      have ht : db.transactions.map (fun t =>
          if t.transaction_id = tid then
            { t with volunteer_id := some vid, status := "in_progress" }
          else t) = db.transactions := by
        conv_rhs => rw [← List.map_id db.transactions]
        exact List.map_congr_left (fun t htm => by simp [h t htm])
      rw [ht]
  · intro h
    simp only [verify_ngo]
    have hu : db.users.map (fun u =>
        if u.user_id = uid then { u with verified := true } else u) =
        db.users := by
      conv_rhs => rw [← List.map_id db.users]
      exact List.map_congr_left (fun u hum => by simp [h u hum])
    rw [hu]

/-- C10 witness: ids 99 match nothing in the concrete store. -/
theorem mutations_true_without_matching_row_witness :
    complete_transaction claimedDB 99 .ok = (true, claimedDB) ∧
    verify_ngo claimedDB 99 .ok = (true, claimedDB) :=
  ⟨((mutations_true_without_matching_row claimedDB 99 5 99).1
      (by decide)).1,
   (mutations_true_without_matching_row claimedDB 99 5 99).2 (by decide)⟩

end GoodnessGrid

namespace GoodnessGrid

/-- C8: posting a donation with every required field valid succeeds and
inserts a row carrying the supplied type, description, quantity and
pickup address with status `available` — but the supplied notes value is
not stored: the INSERT omits the `notes` column, so the row's `notes` is
NULL even though the function accepts and documents the parameter.  A
missing required field (empty description) is rejected with error
messages and no insertion, as the claim states. -/
theorem post_donation_drops_notes :
    (post_donation availableDB 1 "food" "Fresh cooked rice meals" "10 kg"
        "12 Main Street Pune" "call before pickup" none none .ok).1 = [] ∧
    (post_donation availableDB 1 "food" "Fresh cooked rice meals" "10 kg"
        "12 Main Street Pune" "call before pickup" none none .ok).2.1 =
      some 2 ∧
    ((post_donation availableDB 1 "food" "Fresh cooked rice meals" "10 kg"
        "12 Main Street Pune" "call before pickup" none none
        .ok).2.2.donations.getLast?).map
      (fun d => (d.type, d.description, d.quantity, d.pickup_address,
        d.status, d.notes)) =
      some ("food", "Fresh cooked rice meals", "10 kg",
        "12 Main Street Pune", "available", none) ∧
    (post_donation availableDB 1 "food" "" "10 kg" "12 Main Street Pune"
        "call before pickup" none none .ok).1 ≠ [] ∧
    (post_donation availableDB 1 "food" "" "10 kg" "12 Main Street Pune"
        "call before pickup" none none .ok).2.2 = availableDB :=
  ⟨by decide, by decide, by decide, by decide, by decide⟩

end GoodnessGrid

namespace GoodnessGrid

theorem dictGet_mapPairs (keys l : List String) (k : String) :
    dictGet (l.map (fun u => (u, keys.count u))) k =
      if k ∈ l then keys.count k else 0 := by
  induction l with
  | nil => simp [dictGet]
  | cons a l ih =>
    simp only [List.map_cons]
    by_cases hak : a = k
    · subst hak
      rw [dictGet, List.find?_cons_of_pos _ (by simp)]
      simp
    · rw [dictGet, List.find?_cons_of_neg _ (by simp [hak]), ← dictGet, ih]
      simp [List.mem_cons, Ne.symm hak]

theorem dictGet_groupCounts (keys : List String) (k : String) :
    dictGet (groupCounts keys) k = keys.count k := by
  rw [groupCounts, dictGet_mapPairs]
  by_cases h : k ∈ keys.dedup
  · simp [h]
  · rw [if_neg h]
    rw [List.mem_dedup] at h
    exact (List.count_eq_zero.mpr h).symm

theorem sum_groupCounts (keys : List String) :
    ((groupCounts keys).map (fun p => p.2)).sum = keys.length := by
  rw [groupCounts, List.map_map]
  simpa [Function.comp] using List.sum_map_count_dedup_eq_length keys

theorem count_map_eq_length_filter (l : List α) (f : α → String)
    (s : String) :
    ((l.map f).count s) = (l.filter (fun x => f x = s)).length := by
  induction l with
  | nil => simp
  | cons a l ih =>
    simp only [List.map_cons, List.count_cons, List.filter_cons]
    by_cases h : f a = s
    · simp [h, ih]
    · simp [h, ih]

/-- C5: for every store, `get_platform_stats` reports
`total_transactions` equal to the number of transaction rows and
`completion_rate = round(100 * completed / total, 1)` with the rate
exactly `0` when there are no transactions; on the population
`{pending: 2, in_progress: 1, completed: 7}` the rate is `70.0`. -/
theorem platform_stats_completion_rate :
    (∀ db : DB,
      (get_platform_stats db .ok).map
        (fun s => (s.total_transactions, s.completion_rate)) =
      some (db.transactions.length,
        if db.transactions.length = 0 then 0 else
          round1 (100 * ((db.transactions.filter
              (fun t => t.status = "completed")).length : ℚ) /
            (db.transactions.length : ℚ)))) ∧
    (get_platform_stats statsDB .ok).map (fun s => s.completion_rate) =
      some 70 := by
  constructor
  · intro db
    simp only [get_platform_stats, Option.map_some']
    rw [sum_groupCounts, dictGet_groupCounts, count_map_eq_length_filter]
    simp only [List.length_map]
    congr 1
    rw [completionRate]
    by_cases h : db.transactions.length = 0
    · simp [h]
    · rw [if_pos (Nat.pos_of_ne_zero h), if_neg h]
      congr 1
      ring_nf
  · have h1 : (get_platform_stats statsDB .ok).map
        (fun s => s.completion_rate) = some (completionRate 7 10) := by rfl
    have h2 : completionRate 7 10 = 70 := by
      norm_num [completionRate, round1, round_eq]
    rw [h1, h2]

end GoodnessGrid

namespace GoodnessGrid

/-- C3: `complete_transaction` applies its two coupled updates as one
unit.  On any storage fault nothing is committed: the call returns
`False` and the store is exactly as before (neither update visible).  On
success it returns `True`, every transaction with the given id is stored
as `completed` with `completed_at` set to the current clock, and every
donation joined to such a transaction via `donation_id` is stored as
`completed` — both updates visible in the single resulting store. -/
theorem complete_transaction_coupled_atomic :
    ∀ (db : DB) (tid : Nat),
      (∀ f, f ≠ StorageFault.ok →
        complete_transaction db tid f = (false, db)) ∧
      (complete_transaction db tid .ok).1 = true ∧
      (∀ t ∈ db.transactions, t.transaction_id = tid →
        { t with status := "completed", completed_at := some db.now } ∈
          (complete_transaction db tid .ok).2.transactions ∧
        (∀ d ∈ db.donations, d.donation_id = t.donation_id →
          { d with status := "completed" } ∈
            (complete_transaction db tid .ok).2.donations)) := by
  intro db tid
  refine ⟨?_, rfl, ?_⟩
  · intro f hf
    cases f with
    | ok => exact absurd rfl hf
    | noConnection => rfl
    | queryError => rfl
  · intro t ht htid
    constructor
    · simp only [complete_transaction]
      exact List.mem_map.mpr ⟨t, ht, by simp [htid]⟩
    · intro d hd hdid
      simp only [complete_transaction]
      refine List.mem_map.mpr ⟨d, hd, ?_⟩
      have hcont : ((db.transactions.filter
          (fun u => u.transaction_id = tid)).map
          (fun u => u.donation_id)).contains d.donation_id = true := by
        have htf : t ∈ db.transactions.filter
            (fun u => u.transaction_id = tid) :=
          List.mem_filter.mpr ⟨ht, by simp [htid]⟩
        have hmem : t.donation_id ∈ (db.transactions.filter
            (fun u => u.transaction_id = tid)).map
            (fun u => u.donation_id) :=
          List.mem_map_of_mem _ htf
        rw [hdid]
        simpa using hmem
      simp only [hcont]
      rfl

/-- C3 witness: completing transaction 1 of the concrete store
`firstAssignDB` (its clock reads 5) updates the transaction and its
claimed donation together; with a failed connection nothing changes. -/
theorem complete_transaction_coupled_atomic_witness :
    complete_transaction firstAssignDB 1 .noConnection =
      (false, firstAssignDB) ∧
    ({ assignedTxn with status := "completed", completed_at := some 5 } ∈
      (complete_transaction firstAssignDB 1 .ok).2.transactions) ∧
    ({ claimedRiceD with status := "completed" } ∈
      (complete_transaction firstAssignDB 1 .ok).2.donations) :=
  ⟨(complete_transaction_coupled_atomic firstAssignDB 1).1
      .noConnection (by decide),
   ((complete_transaction_coupled_atomic firstAssignDB 1).2.2 assignedTxn
      (by decide) (by decide)).1,
   ((complete_transaction_coupled_atomic firstAssignDB 1).2.2 assignedTxn
      (by decide) (by decide)).2 claimedRiceD (by decide) (by decide)⟩

end GoodnessGrid

namespace GoodnessGrid

/-- C4 counterexample: the invariant does not survive every core
operation.  `claimedDB` satisfies the Transaction invariant (one pending
transaction, no volunteer), but completing that still-pending
transaction yields a `completed` transaction whose `volunteer_id` is
null, violating `volunteer_id is null iff status = pending` —
`complete_transaction` carries no status guard. -/
theorem complete_on_pending_breaks_invariant_cex :
    txInvariant claimedDB ∧
    ¬ txInvariant (complete_transaction claimedDB 1 .ok).2 := by
  constructor
  · decide
  · decide

/-- C4 amended: `claim_donation` and `assign_volunteer_to_transaction`
preserve the Transaction invariant on every store satisfying it, and
`complete_transaction` preserves it provided no transaction carrying the
targeted id is still `pending` (in particular when the target is
`in_progress`, already `completed`, or absent); completing a pending
transaction is the one violating case, exhibited by the counterexample. -/
theorem core_ops_preserve_invariant :
    ∀ db : DB, txInvariant db →
      (∀ did nid, txInvariant (claim_donation db did nid .ok).2) ∧
      (∀ tid vid,
        txInvariant (assign_volunteer_to_transaction db tid vid .ok).2) ∧
      (∀ tid, (∀ t ∈ db.transactions,
          t.transaction_id = tid → t.status ≠ "pending") →
        txInvariant (complete_transaction db tid .ok).2) := by
  intro db hinv
  refine ⟨?_, ?_, ?_⟩
  · intro did nid t' ht'
    have ht2 : t' ∈ db.transactions ++
        [(⟨db.next_transaction_id, did, nid, none, "pending", db.now,
          none⟩ : Txn)] := ht'
    rw [List.mem_append, List.mem_singleton] at ht2
    rcases ht2 with ht2 | rfl
    · obtain ⟨h1, h2, h3⟩ := hinv t' ht2
      refine ⟨h1, h2, ?_⟩
      intro hc d' hd'
      have hd2 : d' ∈ db.donations.map (fun d =>
          if d.donation_id = did && d.status = "available" then
            { d with status := "claimed" } else d) := hd'
      rw [List.mem_map] at hd2
      obtain ⟨d, hd, rfl⟩ := hd2
      intro hdid
      by_cases hcond : (d.donation_id = did && d.status = "available") = true
      · exfalso
        rw [if_pos hcond] at hdid
        have hds := h3 hc d hd hdid
        simp only [Bool.and_eq_true, decide_eq_true_eq] at hcond
        rw [hds] at hcond
        exact absurd hcond.2 (by decide)
      · rw [if_neg hcond]
        rw [if_neg hcond] at hdid
        exact h3 hc d hd hdid
    · exact ⟨by simp, by simp, by simp⟩
  · intro tid vid t' ht'
    have ht2 : t' ∈ db.transactions.map (fun t =>
        if t.transaction_id = tid then
          { t with volunteer_id := some vid, status := "in_progress" }
        else t) := ht'
    rw [List.mem_map] at ht2
    obtain ⟨t, ht, rfl⟩ := ht2
    obtain ⟨h1, h2, h3⟩ := hinv t ht
    by_cases hcond : t.transaction_id = tid
    · rw [if_pos hcond]
      exact ⟨by simp, by simp, by simp⟩
    · rw [if_neg hcond]
      refine ⟨h1, h2, ?_⟩
      intro hc d' hd' hdid
      exact h3 hc d' hd' hdid
  · intro tid hg t' ht'
    have ht2 : t' ∈ db.transactions.map (fun t =>
        if t.transaction_id = tid then
          { t with status := "completed", completed_at := some db.now }
        else t) := ht'
    rw [List.mem_map] at ht2
    obtain ⟨t, ht, rfl⟩ := ht2
    obtain ⟨h1, h2, h3⟩ := hinv t ht
    by_cases hcond : t.transaction_id = tid
    · rw [if_pos hcond]
      have hnp : t.status ≠ "pending" := hg t ht hcond
      have hv : t.volunteer_id ≠ none := fun hvn => hnp (h1.mp hvn)
      refine ⟨?_, ?_, ?_⟩
      · constructor
        · intro hvn
          exact absurd hvn hv
        · intro hps
          exact absurd (show ("completed" : String) = "pending" from hps)
            (by decide)
      · intro hip
        exact absurd (show ("completed" : String) = "in_progress" from hip)
          (by decide)
      · intro _ d' hd'
        have hd2 : d' ∈ db.donations.map (fun d =>
            if ((db.transactions.filter
                (fun u => u.transaction_id = tid)).map
                (fun u => u.donation_id)).contains d.donation_id then
              { d with status := "completed" } else d) := hd'
        rw [List.mem_map] at hd2
        obtain ⟨d, hd, rfl⟩ := hd2
        intro hdid
        by_cases hc2 : (((db.transactions.filter
            (fun u => u.transaction_id = tid)).map
            (fun u => u.donation_id)).contains d.donation_id) = true
        · rw [if_pos hc2]
        · exfalso
          rw [if_neg hc2] at hdid
          apply hc2
          have htf : t ∈ db.transactions.filter
              (fun u => u.transaction_id = tid) :=
            List.mem_filter.mpr ⟨ht, by simp [hcond]⟩
          have hmem : t.donation_id ∈ (db.transactions.filter
              (fun u => u.transaction_id = tid)).map
              (fun u => u.donation_id) :=
            List.mem_map_of_mem _ htf
          rw [hdid]
          simpa using hmem
    · rw [if_neg hcond]
      refine ⟨h1, h2, ?_⟩
      intro hc d' hd'
      have hd2 : d' ∈ db.donations.map (fun d =>
          if ((db.transactions.filter
              (fun u => u.transaction_id = tid)).map
              (fun u => u.donation_id)).contains d.donation_id then
            { d with status := "completed" } else d) := hd'
      rw [List.mem_map] at hd2
      obtain ⟨d, hd, rfl⟩ := hd2
      intro hdid
      by_cases hc2 : (((db.transactions.filter
          (fun u => u.transaction_id = tid)).map
          (fun u => u.donation_id)).contains d.donation_id) = true
      · rw [if_pos hc2]
      · rw [if_neg hc2]
        rw [if_neg hc2] at hdid
        exact h3 hc d hd hdid

/-- C4 amended, witness: the three operations at the concrete stores —
claiming on `availableDB`, assigning on `claimedDB`, and completing the
`in_progress` transaction of `firstAssignDB` — all preserve the
invariant. -/
theorem core_ops_preserve_invariant_witness :
    txInvariant (claim_donation availableDB 1 2 .ok).2 ∧
    txInvariant (assign_volunteer_to_transaction claimedDB 1 5 .ok).2 ∧
    txInvariant (complete_transaction firstAssignDB 1 .ok).2 :=
  ⟨(core_ops_preserve_invariant availableDB (by decide)).1 1 2,
   (core_ops_preserve_invariant claimedDB (by decide)).2.1 1 5,
   (core_ops_preserve_invariant firstAssignDB (by decide)).2.2 1
     (by decide)⟩

end GoodnessGrid

namespace GoodnessGrid

theorem pickupJoin_some {db : DB} {t : Txn} {v : PickupView}
    (h : pickupJoin db t = some v) :
    v.tx = t ∧
    (∃ d ∈ db.donations, d.donation_id = t.donation_id ∧
      v.d_type = d.type ∧ v.d_description = d.description ∧
      v.d_quantity = d.quantity ∧ v.d_pickup_address = d.pickup_address ∧
      ∃ donor ∈ db.users, donor.user_id = d.donor_id ∧
        v.donor_name = donor.name ∧ v.donor_phone = donor.phone) ∧
    (∃ ngo ∈ db.users, ngo.user_id = t.ngo_id ∧
      v.ngo_name = ngo.name ∧ v.ngo_phone = ngo.phone) := by
  rw [pickupJoin] at h
  split at h
  · exact absurd h (by simp)
  · rename_i d hfd
    split at h
    · rename_i donor ngo hdu hnu
      rw [findUser] at hdu hnu
      cases h
      refine ⟨rfl, ⟨d, List.mem_of_find?_eq_some hfd, ?_, rfl, rfl, rfl,
        rfl, ⟨donor, List.mem_of_find?_eq_some hdu, ?_, rfl, rfl⟩⟩,
        ⟨ngo, List.mem_of_find?_eq_some hnu, ?_, rfl, rfl⟩⟩
      · simpa using List.find?_some hfd
      · simpa using List.find?_some hdu
      · simpa using List.find?_some hnu
    · exact absurd h (by simp)

theorem filterMap_pickupJoin_tx (db : DB) :
    ∀ l : List Txn, (∀ t ∈ l, pickupJoin db t ≠ none) →
      (l.filterMap (pickupJoin db)).map (fun v => v.tx) = l := by
  intro l
  induction l with
  | nil => intro _; rfl
  | cons t l ih =>
    intro h
    cases hj : pickupJoin db t with
    | none => exact absurd hj (h t (List.mem_cons_self t l))
    | some v =>
      rw [List.filterMap_cons_some hj, List.map_cons,
        (pickupJoin_some hj).1,
        ih (fun u hu => h u (List.mem_cons_of_mem t hu))]

/-- C7: every row returned by `get_pending_pickups` is a stored
transaction with status `pending` and no volunteer, enriched with the
joined donation's fields and the donor and ngo identities; the result is
ordered by transaction creation time descending; and when every stored
transaction's joins resolve (referential integrity), the result is
exactly the pending, unassigned transactions. -/
theorem pending_pickups_spec :
    ∀ db : DB,
      (∀ v ∈ get_pending_pickups db .ok,
        v.tx ∈ db.transactions ∧ v.tx.status = "pending" ∧
        v.tx.volunteer_id = none ∧
        (∃ d ∈ db.donations, d.donation_id = v.tx.donation_id ∧
          v.d_type = d.type ∧ v.d_description = d.description ∧
          v.d_quantity = d.quantity ∧ v.d_pickup_address = d.pickup_address ∧
          ∃ donor ∈ db.users, donor.user_id = d.donor_id ∧
            v.donor_name = donor.name ∧ v.donor_phone = donor.phone) ∧
        (∃ ngo ∈ db.users, ngo.user_id = v.tx.ngo_id ∧
          v.ngo_name = ngo.name ∧ v.ngo_phone = ngo.phone)) ∧
      (get_pending_pickups db .ok).Pairwise
        (fun a b => b.tx.created_at ≤ a.tx.created_at) ∧
      ((∀ t ∈ db.transactions, pickupJoin db t ≠ none) →
        ((get_pending_pickups db .ok).map (fun v => v.tx)).Perm
          (db.transactions.filter
            (fun t => t.status = "pending" && t.volunteer_id = none))) := by
  intro db
  refine ⟨?_, ?_, ?_⟩
  · intro v hv
    have hv1 : v ∈ sortDesc (fun u : PickupView => u.tx.created_at)
        ((db.transactions.filter
          (fun t => t.status = "pending" && t.volunteer_id = none)).filterMap
          (pickupJoin db)) := hv
    have hv2 :=
      (sortDesc_perm (fun u : PickupView => u.tx.created_at) _).mem_iff.mp hv1
    rw [List.mem_filterMap] at hv2
    obtain ⟨t, htf, hj⟩ := hv2
    obtain ⟨htm, hcond⟩ := List.mem_filter.mp htf
    obtain ⟨htx, hdon, hngo⟩ := pickupJoin_some hj
    subst htx
    simp only [Bool.and_eq_true, decide_eq_true_eq] at hcond
    exact ⟨htm, hcond.1, hcond.2, hdon, hngo⟩
  · have := pairwise_sortDesc (fun u : PickupView => u.tx.created_at)
      ((db.transactions.filter
        (fun t => t.status = "pending" && t.volunteer_id = none)).filterMap
        (pickupJoin db))
    exact this
  · intro hres
    have hperm := (sortDesc_perm (fun u : PickupView => u.tx.created_at)
      ((db.transactions.filter
        (fun t => t.status = "pending" && t.volunteer_id = none)).filterMap
        (pickupJoin db))).map (fun v => v.tx)
    have heq := filterMap_pickupJoin_tx db
      (db.transactions.filter
        (fun t => t.status = "pending" && t.volunteer_id = none))
      (fun t ht => hres t (List.mem_filter.mp ht).1)
    rw [heq] at hperm
    exact hperm

/-- C7 witness: on the concrete store `claimedDB` all joins resolve, and
the queue is exactly its single pending unassigned transaction. -/
theorem pending_pickups_spec_witness :
    ((get_pending_pickups claimedDB .ok).map (fun v => v.tx)).Perm
      (claimedDB.transactions.filter
        (fun t => t.status = "pending" && t.volunteer_id = none)) :=
  (pending_pickups_spec claimedDB).2.2 (by decide)

end GoodnessGrid

namespace GoodnessGrid

theorem bool_rot (a b c : Bool) : ((b && c) && a) = ((a && b) && c) := by
  cases a <;> cases b <;> cases c <;> rfl

theorem chSubstr_nil_left (s : List Char) : chSubstr [] s = true := by
  rw [chSubstr, List.any_eq_true]
  exact ⟨s, by simp [List.mem_tails], rfl⟩

theorem containsCI_empty_left (s : String) : containsCI "" s = true :=
  chSubstr_nil_left _

theorem likeMatch_wild_all (s : List Char) : likeMatch ['%'] s = true := by
  show (if ('%' : Char) = '%' then
    s.tails.any (fun t => likeMatch [] t) else _) = true
  rw [if_pos rfl, List.any_eq_true]
  exact ⟨[], by simp [List.mem_tails], rfl⟩

theorem likeMatch_trailing_pct :
    ∀ (q : List Char), (∀ c ∈ q, c ≠ '%' ∧ c ≠ '_') →
      ∀ s, likeMatch (q ++ ['%']) s = chPrefix q s := by
  intro q
  induction q with
  | nil =>
    intro _ s
    show likeMatch ['%'] s = chPrefix [] s
    rw [likeMatch_wild_all]
    rfl
  | cons a q ih =>
    intro hq s
    have ha := hq a (List.mem_cons_self a q)
    have hq' : ∀ c ∈ q, c ≠ '%' ∧ c ≠ '_' :=
      fun c hc => hq c (List.mem_cons_of_mem a hc)
    cases s with
    | nil => simp [likeMatch, chPrefix, ha.1]
    | cons c cs => simp [likeMatch, chPrefix, ha.1, ha.2, ih hq' cs]

theorem likeContainsCI_eq_containsCI (q s : String)
    (hw : wildcardFree q = true) :
    likeContainsCI q s = containsCI q s := by
  have hq : ∀ c ∈ lowerL q.toList, c ≠ '%' ∧ c ≠ '_' := by
    rw [wildcardFree, List.all_eq_true] at hw
    intro c hc
    have := hw c hc
    simp only [Bool.not_eq_eq_eq_not, Bool.not_true, Bool.or_eq_false_iff,
      decide_eq_false_iff_not] at this
    exact ⟨this.1.1, this.1.2⟩
  rw [likeContainsCI, containsCI, chSubstr]
  show (if ('%' : Char) = '%' then
      (lowerL s.toList).tails.any
        (fun t => likeMatch (lowerL q.toList ++ ['%']) t)
    else _) = _
  rw [if_pos rfl]
  congr 1
  funext t
  exact likeMatch_trailing_pct (lowerL q.toList) hq t

theorem search_pipeline_eq (l : List Donation) (q ty : String)
    (hw : wildcardFree q = true) :
    (if ty ≠ "" && ty ≠ "all" then
      (if q ≠ "" then
        l.filter (fun d =>
          likeContainsCI q d.description || likeContainsCI q d.quantity)
       else l).filter (fun d => d.type = ty)
     else
      (if q ≠ "" then
        l.filter (fun d =>
          likeContainsCI q d.description || likeContainsCI q d.quantity)
       else l)) =
    l.filter (fun d =>
      (containsCI q d.description || containsCI q d.quantity) &&
      (ty = "all" || ty = "" || d.type = ty)) := by
  have hbridge : ∀ d : Donation,
      (likeContainsCI q d.description || likeContainsCI q d.quantity) =
      (containsCI q d.description || containsCI q d.quantity) := by
    intro d
    rw [likeContainsCI_eq_containsCI _ _ hw,
      likeContainsCI_eq_containsCI _ _ hw]
  by_cases hty : (ty ≠ "" && ty ≠ "all") = true
  · rw [if_pos hty]
    simp only [Bool.and_eq_true, decide_eq_true_eq, ne_eq] at hty
    by_cases hq0 : q = ""
    · subst hq0
      rw [if_neg (by simp)]
      refine List.filter_congr (fun d _ => ?_)
      simp [containsCI_empty_left, hty.1, hty.2]
    · rw [if_pos hq0]
      rw [List.filter_filter]
      refine List.filter_congr (fun d _ => ?_)
      rw [hbridge d]
      simp [hty.1, hty.2, Bool.and_comm]
  · rw [if_neg hty]
    simp only [Bool.and_eq_true, not_and_or, Bool.not_eq_true,
      decide_eq_false_iff_not, not_not] at hty
    by_cases hq0 : q = ""
    · subst hq0
      rw [if_neg (by simp)]
      refine ((List.filter_congr (fun d _ => ?_)).trans
        (List.filter_true l)).symm
      rcases hty with h | h <;>
        simp [containsCI_empty_left, h]
    · rw [if_pos hq0]
      refine List.filter_congr (fun d _ => ?_)
      rw [hbridge d]
      rcases hty with h | h <;> simp [h]

end GoodnessGrid

namespace GoodnessGrid

/-- C6 counterexample: the claim quantifies over every type filter, but
the code skips the type condition for the empty (absent) filter string,
not only the sentinel `all`: on `availableDB` (one available `food`
donation) `search_donations("", "", 'available')` returns the donation,
while the claimed semantics with type filter `""` demands
`type = ""` and returns nothing. -/
theorem search_empty_type_filter_cex :
    search_donations availableDB "" "" "available" .ok ≠
      searchSpecClaimed availableDB "" "" := by
  decide

/-- C6 amended: for every query free of SQL LIKE wildcard characters,
`search_donations(q, ty, 'available')` returns exactly the available
donations whose description OR quantity contains `q` as a
case-insensitive substring AND whose type equals `ty` — the type
condition being skipped when the sentinel `all` OR the empty (absent)
filter is given — newest first; and with both conditions absent the
result equals `get_all_donations('available')`. -/
theorem search_donations_amended :
    ∀ (db : DB) (q ty : String), wildcardFree q = true →
      search_donations db q ty "available" .ok =
        searchSpecAmended db q ty ∧
      search_donations db "" "all" "available" .ok =
        get_all_donations db "available" .ok := by
  intro db q ty hw
  constructor
  · have hstart : search_donations db q ty "available" .ok =
        sortDesc (fun v : DonationView => v.donation.created_at)
          ((if ty ≠ "" && ty ≠ "all" then
              (if q ≠ "" then
                (db.donations.filter
                  (fun d => d.status = "available")).filter
                  (fun d => likeContainsCI q d.description ||
                    likeContainsCI q d.quantity)
               else db.donations.filter
                 (fun d => d.status = "available")).filter
                (fun d => d.type = ty)
            else
              (if q ≠ "" then
                (db.donations.filter
                  (fun d => d.status = "available")).filter
                  (fun d => likeContainsCI q d.description ||
                    likeContainsCI q d.quantity)
               else db.donations.filter
                 (fun d => d.status = "available"))).filterMap
            (donorJoin db)) := rfl
    have hlist : (db.donations.filter
        (fun d => d.status = "available")).filter
        (fun d => (containsCI q d.description || containsCI q d.quantity) &&
          (ty = "all" || ty = "" || d.type = ty)) =
        db.donations.filter (fun d =>
          d.status = "available" &&
          (containsCI q d.description || containsCI q d.quantity) &&
          (ty = "all" || ty = "" || d.type = ty)) := by
      rw [List.filter_filter]
      exact List.filter_congr (fun d _ => bool_rot _ _ _)
    rw [hstart, search_pipeline_eq _ q ty hw, hlist, searchSpecAmended]
  · simp [search_donations, get_all_donations]

/-- C6 amended, witness: a concrete wildcard-free query and real type
filter on the concrete store. -/
theorem search_donations_amended_witness :
    search_donations availableDB "rice" "food" "available" .ok =
      searchSpecAmended availableDB "rice" "food" :=
  (search_donations_amended availableDB "rice" "food" (by decide)).1

end GoodnessGrid
